import Mathlib

/-!
Verification of the speech-practice analysis pipeline in src/app.py.

The Python source is shallowly embedded: the pure metric helpers
(count_filler_words_detailed, assess_pace, the metric block of
analyze_video) become Lean functions over strings and rationals, and the
request handler analyze_video becomes a function of the request together
with an oracle describing the outcomes of every external effect (the
environment variable, the ffprobe and ffmpeg invocations, the remote
transcription call).  The handler result records the HTTP response, the
set of temporary files ever created, the set still on disk when the
response is returned, and whether the remote transcription call was made.

Python floats are modelled as rationals; int(x) and round(x, 2) are
modelled as truncation toward zero and round-half-to-even at two decimal
places.  The regex token class \w is modelled over its ASCII range.
-/

namespace PublicSpeaking

/-! ### Python-arithmetic helpers -/

/-- Truncation toward zero of a rational, the model of Python int(x). -/
def pyInt (q : ℚ) : ℤ :=
  if 0 ≤ q.num then ((q.num.toNat / q.den : ℕ) : ℤ)
  else -((q.num.natAbs / q.den : ℕ) : ℤ)

/-- Floor of a rational, written out computably. -/
def ratFloor (q : ℚ) : ℤ :=
  if 0 ≤ q.num then ((q.num.toNat / q.den : ℕ) : ℤ)
  else -(((q.num.natAbs + q.den - 1) / q.den : ℕ) : ℤ)

/-- Round to the nearest integer, ties to the even integer: the rounding
mode of Python round. -/
def roundHalfEven (q : ℚ) : ℤ :=
  let f := ratFloor q
  let frac := q - (f : ℚ)
  if frac < 1 / 2 then f
  else if 1 / 2 < frac then f + 1
  else if f % 2 = 0 then f else f + 1

/-- Model of Python round(x, 2). -/
def pyRound2 (q : ℚ) : ℚ :=
  ((roundHalfEven (q * 100) : ℤ) : ℚ) / 100

/-! ### Tokenization helpers -/

/-- The regex class \w over its ASCII range: letters, digits, underscore. -/
def wordChar (c : Char) : Bool :=
  c.isAlphanum || c = '_'

/-- Accumulator form of maximal-run splitting. -/
def runsAux (keep : Char → Bool) : List Char → List Char → List (List Char)
  | [], acc => if acc.isEmpty then [] else [acc.reverse]
  | c :: rest, acc =>
    if keep c then runsAux keep rest (c :: acc)
    else if acc.isEmpty then runsAux keep rest []
    else acc.reverse :: runsAux keep rest []

/-- Maximal runs of characters satisfying keep, in order: the common model
of regex findall on a one-class pattern and of str.split. -/
def runs (keep : Char → Bool) (l : List Char) : List (List Char) :=
  runsAux keep l []

/-- Model of Python str.split() with no argument: maximal runs of
non-whitespace characters. -/
def pySplit (s : String) : List (List Char) :=
  runs (fun c => !c.isWhitespace) s.toList

/-- Whether the first list is an initial segment of the second. -/
def startsWithList : List Char → List Char → Bool
  | [], _ => true
  | _ :: _, [] => false
  | p :: ps, c :: cs => p == c && startsWithList ps cs

/-- Scanner for countOcc: the counter holds how many characters of a
match already found remain to be skipped before scanning resumes. -/
def countOccAux (pat : List Char) : List Char → ℕ → ℕ
  | [], _ => 0
  | _ :: rest, Nat.succ k => countOccAux pat rest k
  | c :: rest, 0 =>
    if !pat.isEmpty && startsWithList pat (c :: rest) then
      1 + countOccAux pat rest (pat.length - 1)
    else countOccAux pat rest 0

/-- Model of Python str.count: non-overlapping occurrences of pat,
scanning left to right. -/
def countOcc (pat s : List Char) : ℕ :=
  countOccAux pat s 0

/-! ### Filler-word analysis (src/app.py lines 22-23 and 124-142) -/

/-- The FILLER_WORDS catalog of src/app.py. -/
def FILLER_WORDS : List String :=
  ["um", "uh", "like", "you know", "so", "actually", "basically",
   "literally", "right", "okay"]

/-- Loop body of count_filler_words_detailed: count one catalog entry
(substring count for multi-word phrases, token count otherwise) and add
it to the running total and tally when positive. -/
def fillerStep (textLower : List Char) (words : List (List Char))
    (acc : ℕ × List (String × ℕ)) (filler : String) : ℕ × List (String × ℕ) :=
  let count :=
    if ' ' ∈ filler.toList then countOcc filler.toList textLower
    else words.count filler.toList
  if 0 < count then (acc.1 + count, acc.2 ++ [(filler, count)]) else acc

/-- count_filler_words_detailed of src/app.py: lower-case the transcript,
tokenize it on \w runs, and tally each catalog entry, returning the total
count and the per-phrase tally of the positive counts. -/
def count_filler_words_detailed (text : String) : ℕ × List (String × ℕ) :=
  let textLower := text.toList.map Char.toLower
  let words := runs wordChar textLower
  FILLER_WORDS.foldl (fillerStep textLower words) (0, [])

/-! ### Pace verdict (src/app.py lines 144-155) -/

def msgExcellent : String :=
  "Excellent pace! You\x27re speaking at an ideal rate for audience comprehension."

def msgGoodSlow : String :=
  "Good pace, but slightly slow. Consider speaking a bit faster to maintain energy."

def msgGoodFast : String :=
  "Good pace, but slightly fast. Consider slowing down slightly for clarity."

def msgTooSlow : String :=
  "Too slow. Your audience may lose interest. Try to increase your pace."

def msgTooFast : String :=
  "Too fast. Slow down to ensure your audience can follow along."

/-- assess_pace of src/app.py, total over the integers as in the source. -/
def assess_pace (wpm : ℤ) : String :=
  if 140 ≤ wpm ∧ wpm ≤ 160 then msgExcellent
  else if 120 ≤ wpm ∧ wpm < 140 then msgGoodSlow
  else if 160 < wpm ∧ wpm ≤ 180 then msgGoodFast
  else if wpm < 120 then msgTooSlow
  else msgTooFast

/-! ### Metric block of analyze_video (src/app.py lines 219-252) -/

/-- The JSON payload of a successful analysis. -/
structure AnalysisResult where
  transcript : String
  duration : ℚ
  word_count : ℕ
  words_per_min : ℤ
  filler_count : ℕ
  filler_rate_per_min : ℚ
  filler_breakdown : List (String × ℕ)
  pace : String
deriving DecidableEq

/-- The metric computation of analyze_video, src/app.py lines 219-252:
word count from str.split, truncated words per minute with a zero guard,
the filler analysis, the filler rate per minute with a one-minute divisor
floor, and the pace verdict. -/
def buildResult (transcript : String) (duration : ℚ) : AnalysisResult :=
  let words := pySplit transcript
  let word_count := words.length
  let words_per_min : ℤ :=
    if 0 < duration then pyInt ((word_count : ℚ) / duration * 60) else 0
  let fc := count_filler_words_detailed transcript
  let duration_minutes : ℚ := if 0 < duration then duration / 60 else 1
  let filler_rate_per_min : ℚ := pyRound2 ((fc.1 : ℚ) / duration_minutes)
  ⟨transcript, duration, word_count, words_per_min, fc.1,
    filler_rate_per_min, fc.2, assess_pace words_per_min⟩

/-! ### The request handler (src/app.py lines 157-261) -/

/-- The uploaded file field: declared filename and byte size as reported
by seek and tell. -/
structure Upload where
  filename : String
  size : ℕ
deriving DecidableEq

/-- A POST /analyze request: the optional video file field. -/
structure Request where
  video : Option Upload
deriving DecidableEq

/-- Outcomes of every external effect of one request: whether the
OPENAI_API_KEY environment variable is set, whether the best-effort
compression step returns a new file, whether a failed compression
attempt had already written its output file before the swallowed
exception (ffmpeg can exit non-zero after creating the target), the
ffprobe duration (none models a raised exception), whether the ffmpeg
audio extraction succeeds and leaves a file, the byte size that
os.path.getsize reports for the extracted audio, the remote
transcription outcome (none models a raised exception), and the
exception messages used for the 500 bodies. -/
structure Oracle where
  apiKeySet : Bool
  compressSucceeds : Bool
  compressLeavesOutput : Bool
  probeResult : Option ℚ
  extractSucceeds : Bool
  audioSize : ℕ
  transcription : Option String
  probeErr : String
  extractErr : String
  transcribeErr : String

/-- The temporary files a request can create: the saved upload, the
compressed video, the extracted audio. -/
inductive TempFile where
  | original
  | compressed
  | audio
deriving DecidableEq

/-- An HTTP response: a 200 with the analysis payload, or a status with
an error body. -/
inductive Response where
  | success (result : AnalysisResult)
  | failure (status : ℕ) (error : String)
deriving DecidableEq

/-- The HTTP status of a response. -/
def Response.status : Response → ℕ
  | Response.success _ => 200
  | Response.failure s _ => s

/-- What one run of the handler did: the response, whether the remote
transcription call was made, the temporary files ever created, and the
temporary files still on disk when the response is returned. -/
structure RunResult where
  response : Response
  transcribeCalled : Bool
  created : List TempFile
  remaining : List TempFile
deriving DecidableEq

/-- One-decimal formatting of a non-negative rational, the model of the
Python format specifier used in the duration error message. -/
def fmt1 (q : ℚ) : String :=
  let n := (roundHalfEven (q * 10)).toNat
  toString (n / 10) ++ "." ++ toString (n % 10)

/-- The 400 body for an over-long video, src/app.py line 212. -/
def videoTooLongMsg (duration : ℚ) : String :=
  "Video is too long (" ++ fmt1 (duration / 60) ++
    " minutes). Please use videos under 3 minutes."

/-- Whether a failed compression attempt left a partly written output
file behind: the upload is over 20MB so compression runs, it fails, and
ffmpeg had already created the output file when it failed.  No line of
src/app.py ever unlinks this file: compress_video swallows the failure
and returns the input path (lines 94-97), and both later cleanups
(lines 209-211 and 234-239) unlink only video_path and audio_path. -/
def strayCompressed (u : Upload) (w : Oracle) : Bool :=
  if 20 * 1024 * 1024 < u.size then !w.compressSucceeds && w.compressLeavesOutput
  else false

/-- analyze_video of src/app.py lines 157-261, as a function of the
request and the external-effect oracle.  Branches follow the source line
by line, including the compression failure mode in which ffmpeg wrote a
partial output file that no later line deletes. -/
def analyze_video (req : Request) (w : Oracle) : RunResult :=
  -- lines 162-164: API key guard, before the try block and the request
  if w.apiKeySet = false then
    ⟨Response.failure 500 "OpenAI API key not configured on server",
      false, [], []⟩
  else
    match req.video with
    | none =>
      -- lines 167-169: missing file field
      ⟨Response.failure 400 "No video file provided", false, [], []⟩
    | some video_file =>
      -- lines 175-183: size check before any temporary file exists
      if 50 * 1024 * 1024 < video_file.size then
        ⟨Response.failure 400
            "Video file too large. Please use a video under 50MB (about 3 minutes).",
          false, [], []⟩
      else
        -- lines 186-199: save the upload, then best-effort compression
        -- for uploads over 20MB, unlinking the original on success; a
        -- failed attempt may still have written its output file, which
        -- nothing ever deletes
        let compressed : Bool :=
          if 20 * 1024 * 1024 < video_file.size then w.compressSucceeds else false
        let stray : Bool := strayCompressed video_file w
        let strayList : List TempFile := if stray then [TempFile.compressed] else []
        let created1 : List TempFile :=
          if compressed || stray then [TempFile.original, TempFile.compressed]
          else [TempFile.original]
        let disk1 : List TempFile :=
          if compressed then [TempFile.compressed]
          else TempFile.original :: strayList
        -- line 205, via lines 25-50: extract_audio_ffmpeg probes the
        -- duration and then transcodes; either step can raise
        match w.probeResult with
        | none => ⟨Response.failure 500 w.probeErr, false, created1, disk1⟩
        | some duration =>
          if w.extractSucceeds = false then
            ⟨Response.failure 500 w.extractErr, false, created1, disk1⟩
          else
            let created2 := created1 ++ [TempFile.audio]
            let disk2 := disk1 ++ [TempFile.audio]
            -- lines 207-212: duration gate, unlinking video_path and
            -- audio_path but not a stray compressed file
            if 180 < duration then
              ⟨Response.failure 400 (videoTooLongMsg duration), false, created2, strayList⟩
            else
              -- lines 214-216, via lines 99-122: transcribe_audio reads
              -- the audio size (only printed) and makes the remote call
              match w.transcription with
              | none => ⟨Response.failure 500 w.transcribeErr, true, created2, disk2⟩
              | some transcript =>
                -- lines 219-255: metrics, then the final cleanup, which
                -- also unlinks only video_path and audio_path
                ⟨Response.success (buildResult transcript duration), true, created2, strayList⟩

/-! ### Definitions taken from the wording of the spec -/

/-- Modelled from the spec wording of the pace table: five bands written
with inclusive integer bounds, to be compared with assess_pace. -/
def paceBandSpec (wpm : ℕ) : String :=
  if 140 ≤ wpm ∧ wpm ≤ 160 then msgExcellent
  else if 120 ≤ wpm ∧ wpm ≤ 139 then msgGoodSlow
  else if 161 ≤ wpm ∧ wpm ≤ 180 then msgGoodFast
  else if wpm < 120 then msgTooSlow
  else msgTooFast

/-- Modelled from the spec wording of the words-per-minute formula:
truncated wordCount / durationSeconds * 60, zero when the duration is
not positive. -/
def wpmSpec (wordCount : ℕ) (d : ℚ) : ℤ :=
  if 0 < d then pyInt ((wordCount : ℚ) / d * 60) else 0

/-- Modelled from the spec wording of the filler rate formula: the total
filler count over the duration in minutes rounded to two decimal places,
with a one-minute divisor floor when the duration is not positive. -/
def fillerRateSpec (totalFillers : ℕ) (d : ℚ) : ℚ :=
  pyRound2 ((totalFillers : ℚ) / (if 0 < d then d / 60 else 1))

/-! ### Concrete requests and oracles used by witnesses -/

/-- The transcript of the concrete scenario in the spec. -/
def scenarioTranscript : String :=
  "um so like I think basically we should, um, go now"

/-- A short transcript for runs whose payload is irrelevant. -/
def helloText : String := "hello world"

/-- A fully successful environment: key set, small upload, 60 second
probe, extraction fine, remote transcription answers. -/
def goodOracle : Oracle :=
  ⟨true, false, false, some 60, true, 1000, some helloText, "", "", ""⟩

/-- An environment in which the remote transcription call raises. -/
def leakOracle : Oracle :=
  ⟨true, false, false, some 60, true, 1000, none, "probe failed", "extract failed", "boom"⟩

/-- A successful environment whose extracted audio is 30MB, well over
the 24MB ceiling named by the spec. -/
def bigAudioOracle : Oracle :=
  ⟨true, false, false, some 60, true, 30 * 1024 * 1024, some helloText, "", "", ""⟩

/-- A successful environment whose probed duration is 181 seconds. -/
def longOracle : Oracle :=
  ⟨true, false, false, some 181, true, 1000, some helloText, "", "", ""⟩

/-- An environment probing 181 seconds in which compression of the
over-20MB upload fails after ffmpeg already wrote its output file. -/
def strayGateOracle : Oracle :=
  ⟨true, false, true, some 181, true, 1000, some helloText, "", "", ""⟩

/-- An environment with the OPENAI_API_KEY variable unset. -/
def noKeyOracle : Oracle :=
  ⟨false, false, false, some 60, true, 1000, some helloText, "", "", ""⟩

/-! ### Helper lemmas -/

/-- The filler fold keeps the running total equal to the sum of the
tally and keeps every tallied count positive. -/
theorem fillerFold_inv (tl : List Char) (ws : List (List Char)) (fs : List String)
    (acc : ℕ × List (String × ℕ))
    (h1 : acc.1 = (acc.2.map Prod.snd).sum)
    (h2 : (acc.2.all fun p => decide (0 < p.2)) = true) :
    (fs.foldl (fillerStep tl ws) acc).1
        = ((fs.foldl (fillerStep tl ws) acc).2.map Prod.snd).sum ∧
      ((fs.foldl (fillerStep tl ws) acc).2.all fun p => decide (0 < p.2)) = true := by
  induction fs generalizing acc with
  | nil => exact ⟨h1, h2⟩
  | cons f fs ih =>
    simp only [List.foldl_cons]
    have key : ∀ n : ℕ,
        ((if 0 < n then (acc.1 + n, acc.2 ++ [(f, n)]) else acc) : ℕ × List (String × ℕ)).1
            = ((if 0 < n then (acc.1 + n, acc.2 ++ [(f, n)]) else acc).2.map Prod.snd).sum ∧
          ((if 0 < n then (acc.1 + n, acc.2 ++ [(f, n)]) else acc).2.all
              fun p => decide (0 < p.2)) = true := by
      intro n
      split_ifs with hpos
      · refine ⟨?_, ?_⟩
        · simp [h1]
        · simp [List.all_append, h2, hpos]
      · exact ⟨h1, h2⟩
    have hstep := key (if ' ' ∈ f.toList then countOcc f.toList tl else ws.count f.toList)
    apply ih
    · simp only [fillerStep]
      exact hstep.1
    · simp only [fillerStep]
      exact hstep.2

/-- A list that is either empty or the singleton stray compressed file
consists of stray compressed files only. -/
theorem strayList_all_compressed (b : Bool) :
    ((if b = true then [TempFile.compressed] else []).all
      fun f => decide (f = TempFile.compressed)) = true := by
  cases b <;> rfl

/-! ### Claims -/

/-- C1, counterexample: in an environment where the remote transcription
call raises, the handler answers 500 and both the saved upload and the
extracted audio are still on disk when the response is returned, so the
cleanup claim fails as stated; a second leak exists on the 200 and 400
paths, the partly written output of a failed compression attempt. -/
theorem cleanup_invariant_counterexample :
    (analyze_video ⟨some ⟨"talk.mp4", 1000⟩⟩ leakOracle).remaining
        = [TempFile.original, TempFile.audio] ∧
      (analyze_video ⟨some ⟨"talk.mp4", 1000⟩⟩ leakOracle).response
        = Response.failure 500 "boom" := by
  decide

/-- C1, amended: on a request that ends in a 200 or a 400 response, the
only temporary file that can remain on disk is a partly written
compressed file left by a failed compression attempt; the 500 paths
taken after the upload was saved leave all current temporary files
behind. -/
theorem cleanup_unless_500 (req : Request) (w : Oracle) :
    ((analyze_video req w).remaining.all
        fun f => decide (f = TempFile.compressed)) = true ∨
      (analyze_video req w).response.status = 500 := by
  rcases req with ⟨v⟩
  rcases w with ⟨key, comp, lv, probe, ext, asz, tr, e1, e2, e3⟩
  cases key
  · simp [analyze_video, Response.status]
  · cases v with
    | none => simp [analyze_video, Response.status]
    | some u =>
      by_cases hs : 50 * 1024 * 1024 < u.size
      · simp [analyze_video, Response.status, hs]
      · cases probe with
        | none => simp [analyze_video, Response.status, hs]
        | some d =>
          cases ext
          · simp [analyze_video, Response.status, hs]
          · by_cases hd : 180 < d
            · simp [analyze_video, Response.status, hs, hd, strayList_all_compressed]
            · cases tr <;>
                simp [analyze_video, Response.status, hs, hd, strayList_all_compressed]

/-- C2, counterexample: a 30MB upload whose compression attempt fails
after ffmpeg wrote its output file, probed at 181 seconds, is rejected
with the 400 over-length error without a transcription call, yet the
partly written compressed file is still on disk when the response is
returned, so the release-all-assets conjunct of the claim fails as
stated. -/
theorem gate_leaves_stray_compressed :
    (analyze_video ⟨some ⟨"talk.mp4", 30 * 1024 * 1024⟩⟩ strayGateOracle).response
        = Response.failure 400 (videoTooLongMsg 181) ∧
      (analyze_video ⟨some ⟨"talk.mp4", 30 * 1024 * 1024⟩⟩ strayGateOracle).transcribeCalled
        = false ∧
      (analyze_video ⟨some ⟨"talk.mp4", 30 * 1024 * 1024⟩⟩ strayGateOracle).remaining
        = [TempFile.compressed] :=
  ⟨rfl, rfl, rfl⟩

/-- C2, amended: a request whose probed duration exceeds 180 seconds is
rejected with the 400 over-length error, the remote transcription call
is never made, and the saved video and the extracted audio are released;
the one asset that can remain is a partly written compressed file left
by a failed compression attempt. -/
theorem long_video_rejected_before_transcription (u : Upload) (w : Oracle) (d : ℚ)
    (hk : w.apiKeySet = true) (hs : u.size ≤ 50 * 1024 * 1024)
    (hp : w.probeResult = some d) (he : w.extractSucceeds = true)
    (hd : 180 < d) :
    (analyze_video ⟨some u⟩ w).response = Response.failure 400 (videoTooLongMsg d) ∧
      (analyze_video ⟨some u⟩ w).transcribeCalled = false ∧
      (analyze_video ⟨some u⟩ w).remaining
        = (if strayCompressed u w then [TempFile.compressed] else []) := by
  have hs2 : ¬ (50 * 1024 * 1024 < u.size) := not_lt.mpr hs
  simp [analyze_video, hk, hs2, hp, he, hd]

/-- C2, witness: the gate theorem applied to a 181 second video in an
otherwise healthy environment, where no stray compressed file exists and
nothing remains on disk. -/
theorem long_video_rejected_before_transcription_witness :
    longOracle.apiKeySet = true ∧ (1000 : ℕ) ≤ 50 * 1024 * 1024 ∧
      longOracle.probeResult = some 181 ∧ longOracle.extractSucceeds = true ∧
      (180 : ℚ) < 181 ∧
      ((analyze_video ⟨some ⟨"talk.mp4", 1000⟩⟩ longOracle).response
          = Response.failure 400 (videoTooLongMsg 181) ∧
        (analyze_video ⟨some ⟨"talk.mp4", 1000⟩⟩ longOracle).transcribeCalled = false ∧
        (analyze_video ⟨some ⟨"talk.mp4", 1000⟩⟩ longOracle).remaining = []) := by
  have h := long_video_rejected_before_transcription ⟨"talk.mp4", 1000⟩ longOracle 181
    rfl (by decide) rfl rfl (by decide)
  refine ⟨rfl, by decide, rfl, rfl, by decide, h.1, h.2.1, ?_⟩
  rw [h.2.2]
  decide

/-- C3, counterexample: with a 30MB extracted audio file, far over the
24MB ceiling named by the spec, the remote transcription call is made
anyway and the request succeeds, so the size-ceiling claim fails as
stated. -/
theorem audio_ceiling_counterexample :
    24 * 1024 * 1024 < bigAudioOracle.audioSize ∧
      (analyze_video ⟨some ⟨"talk.mp4", 1000⟩⟩ bigAudioOracle).transcribeCalled = true ∧
      (analyze_video ⟨some ⟨"talk.mp4", 1000⟩⟩ bigAudioOracle).response.status = 200 := by
  refine ⟨by decide, by decide, by decide⟩

/-- C3, amended: the handler enforces no audio size ceiling at all: its
outcome is independent of the size of the extracted audio file, there is
no second lower-bitrate encode, and no audio-too-large failure exists. -/
theorem analyze_ignores_audio_size (req : Request) (key comp lv : Bool)
    (probe : Option ℚ) (ext : Bool) (a b : ℕ) (tr : Option String)
    (e1 e2 e3 : String) :
    analyze_video req ⟨key, comp, lv, probe, ext, a, tr, e1, e2, e3⟩ =
      analyze_video req ⟨key, comp, lv, probe, ext, b, tr, e1, e2, e3⟩ := rfl

/-- C4: assess_pace agrees with the five-band partition written in the
spec on every non-negative integer, the five verdict strings are
pairwise distinct, and the eight boundary values fall as listed. -/
theorem assess_pace_partitions :
    (∀ wpm : ℕ, assess_pace (wpm : ℤ) = paceBandSpec wpm) ∧
      [msgExcellent, msgGoodSlow, msgGoodFast, msgTooSlow, msgTooFast].Nodup ∧
      assess_pace 119 = msgTooSlow ∧ assess_pace 120 = msgGoodSlow ∧
      assess_pace 139 = msgGoodSlow ∧ assess_pace 140 = msgExcellent ∧
      assess_pace 160 = msgExcellent ∧ assess_pace 161 = msgGoodFast ∧
      assess_pace 180 = msgGoodFast ∧ assess_pace 181 = msgTooFast := by
  refine ⟨fun wpm => ?_, by decide, by decide, by decide, by decide, by decide,
    by decide, by decide, by decide, by decide⟩
  unfold assess_pace paceBandSpec
  split_ifs <;> first | rfl | omega

/-- C5: for every transcript, the total returned by
count_filler_words_detailed equals the sum of the tally values, and
every tallied count is positive. -/
theorem filler_total_matches_tally (text : String) :
    (count_filler_words_detailed text).1
        = ((count_filler_words_detailed text).2.map Prod.snd).sum ∧
      ((count_filler_words_detailed text).2.all fun p => decide (0 < p.2)) = true := by
  simp only [count_filler_words_detailed]
  exact fillerFold_inv _ _ _ _ rfl rfl

/-- C6: the concrete scenario transcript at 10 seconds yields 11 words,
66 words per minute, the too-slow verdict, the four-entry filler tally,
a total of 5 fillers, and a filler rate of 30 per minute. -/
theorem metrics_scenario :
    buildResult scenarioTranscript 10 =
        ⟨scenarioTranscript, 10, 11, 66, 5, 30,
          [("um", 2), ("like", 1), ("so", 1), ("basically", 1)], msgTooSlow⟩ ∧
      assess_pace 66 = msgTooSlow := by
  have hsplit : (pySplit scenarioTranscript).length = 11 := by decide
  have hfill : count_filler_words_detailed scenarioTranscript =
      (5, [("um", 2), ("like", 1), ("so", 1), ("basically", 1)]) := by decide
  refine ⟨?_, by decide⟩
  simp only [buildResult, hsplit, hfill]
  norm_num [pyInt, pyRound2, roundHalfEven, ratFloor, assess_pace, msgTooSlow]

/-- C7: for every transcript and duration, the words-per-minute field
matches the truncated formula of the spec with its zero guard, and the
filler-rate field matches the two-decimal rounding formula of the spec
with its one-minute divisor floor. -/
theorem rate_formulas (t : String) (d : ℚ) :
    (buildResult t d).words_per_min = wpmSpec (buildResult t d).word_count d ∧
      (buildResult t d).filler_rate_per_min
        = fillerRateSpec (buildResult t d).filler_count d :=
  ⟨rfl, rfl⟩

/-- C8, counterexample: an upload declared with a txt extension, outside
the allow-list named by the spec, is not rejected: the request runs the
whole pipeline and succeeds, so the unsupported-format claim fails as
stated. -/
theorem extension_counterexample :
    (analyze_video ⟨some ⟨"talk.txt", 1000⟩⟩ goodOracle).response.status = 200 ∧
      (analyze_video ⟨some ⟨"talk.txt", 1000⟩⟩ goodOracle).transcribeCalled = true := by
  refine ⟨by decide, by decide⟩

/-- C8, amended: the handler never inspects the declared filename: its
outcome is the same for every extension, each upload being saved under
the primary mp4 suffix and allowed to proceed. -/
theorem analyze_ignores_filename (a b : String) (sz : ℕ) (w : Oracle) :
    analyze_video ⟨some ⟨a, sz⟩⟩ w = analyze_video ⟨some ⟨b, sz⟩⟩ w := rfl

/-- C9, counterexample: a request whose video field is present but has
an empty filename is not rejected: it runs the whole pipeline, creates
temporary files, and succeeds, so the missing-file claim fails for the
empty-filename half. -/
theorem empty_filename_counterexample :
    (analyze_video ⟨some ⟨"", 1000⟩⟩ goodOracle).response.status = 200 ∧
      (analyze_video ⟨some ⟨"", 1000⟩⟩ goodOracle).created ≠ [] := by
  decide

/-- C9, amended: only a request with the video field absent fails with
the 400 missing-file error, with no temporary file created; an empty
filename is never checked. -/
theorem missing_file_rejected (w : Oracle) (hk : w.apiKeySet = true) :
    analyze_video ⟨none⟩ w =
      ⟨Response.failure 400 "No video file provided", false, [], []⟩ := by
  simp [analyze_video, hk]

/-- C9, witness: the amended theorem applied to the healthy
environment. -/
theorem missing_file_rejected_witness :
    goodOracle.apiKeySet = true ∧
      analyze_video ⟨none⟩ goodOracle =
        ⟨Response.failure 400 "No video file provided", false, [], []⟩ :=
  ⟨rfl, missing_file_rejected goodOracle rfl⟩

/-- C10: with the OPENAI_API_KEY variable unset, every request receives
the 500 configuration error before the upload is touched: no temporary
file is ever created and no 400 validation answer can be produced. -/
theorem no_api_key_short_circuits (req : Request) (w : Oracle)
    (hk : w.apiKeySet = false) :
    analyze_video req w =
      ⟨Response.failure 500 "OpenAI API key not configured on server",
        false, [], []⟩ := by
  simp [analyze_video, hk]

/-- C10, witness: the short-circuit theorem applied to a request that
does carry a video file. -/
theorem no_api_key_short_circuits_witness :
    noKeyOracle.apiKeySet = false ∧
      analyze_video ⟨some ⟨"talk.mp4", 1000⟩⟩ noKeyOracle =
        ⟨Response.failure 500 "OpenAI API key not configured on server",
          false, [], []⟩ :=
  ⟨rfl, no_api_key_short_circuits ⟨some ⟨"talk.mp4", 1000⟩⟩ noKeyOracle rfl⟩

end PublicSpeaking
